import Mathlib

/-!
Verification of the stock RPS-selection scripts (`rpstool.py`, `train.py`,
`checkrps.py`) against their natural-language specification.

Modelling conventions, shared by all definitions below:
* A pandas float cell is `Option ℚ`: `none` models NaN/missing, `some q` a
  finite numeric value (rationals stand in for the finite floats actually
  produced; none of the verified properties depends on float rounding).
* Dates are `ℤ` (days on a linear timeline); pandas timestamps compare the
  same way.
* A pandas comparison against NaN is `false`; the `Option`-lifted comparison
  operators below encode exactly that.
* `Series.max()` skips NaN and is NaN on an all-NaN/empty selection, hence
  `Option ℚ` valued.
* The per-universe close columns are taken as index-aligned (every series in
  one run covers the same trading dates), so the `pd.DataFrame` union-align
  performed by `calculate_rps` is the identity and each column is just the
  instrument's close list.
-/

namespace RpsSel

/-- Pandas `a > b` on possibly-missing floats: `false` whenever a side is NaN. -/
def ogt : Option ℚ → Option ℚ → Bool
  | some a, some b => decide (b < a)
  | _, _ => false

/-- Pandas `a >= b` on possibly-missing floats: `false` whenever a side is NaN. -/
def oge : Option ℚ → Option ℚ → Bool
  | some a, some b => decide (b ≤ a)
  | _, _ => false

/-- Pandas `Series.max()`: NaN entries are skipped; the result is NaN (`none`)
when no numeric entry exists. -/
def omax (l : List (Option ℚ)) : Option ℚ :=
  match l.filterMap id with
  | [] => none
  | x :: t => some (t.foldl max x)

/-- The numeric (non-NaN) entries of a float column, in order. -/
def validChanges (xs : List (Option ℚ)) : List ℚ :=
  xs.filterMap id

/-- Number of entries of `l` strictly below `x`. -/
def countLt (l : List ℚ) (x : ℚ) : ℕ :=
  (l.filter (fun v => decide (v < x))).length

/-- Number of entries of `l` equal to `x`. -/
def countEq (l : List ℚ) (x : ℚ) : ℕ :=
  (l.filter (fun v => decide (v = x))).length

/-- Number of entries of `l` at most `x`. -/
def countLe (l : List ℚ) (x : ℚ) : ℕ :=
  (l.filter (fun v => decide (v ≤ x))).length

/-- 1-indexed positions (starting from `k`) at which `x` occurs in `s`. -/
def rankPositionsFrom (k : ℕ) (s : List ℚ) (x : ℚ) : List ℕ :=
  match s with
  | [] => []
  | v :: t =>
    if v = x then k :: rankPositionsFrom (k + 1) t x
    else rankPositionsFrom (k + 1) t x

/-- Pandas `Series.rank(method='average')` rank of value `x` within the
numeric sample `l`: the mean of the 1-indexed order-statistic positions the
occurrences of `x` take in the ascending sort of `l`. -/
def avgRank (l : List ℚ) (x : ℚ) : ℚ :=
  ((rankPositionsFrom 1 (l.insertionSort (· ≤ ·)) x).sum : ℚ) /
    ((rankPositionsFrom 1 (l.insertionSort (· ≤ ·)) x).length : ℚ)

/-- Embeds `rpstool.py`/`train.py` `calculate_rps` lines 41–44 at the level of
one instrument's latest percentage change `v` against the universe's latest
changes `xs`: `ranks = pct_changes.iloc[-1].rank(pct=True); rps = ranks * 100`.
A NaN change keeps a NaN rank (`na_option='keep'`), the percentage denominator
is the count of non-NaN changes. -/
def rps_score (xs : List (Option ℚ)) (v : Option ℚ) : Option ℚ :=
  v.map (fun x => avgRank (validChanges xs) x / ((validChanges xs).length : ℚ) * 100)

/-- The whole RPS column produced for the latest cross-section `xs`. -/
def calculate_rps_scores (xs : List (Option ℚ)) : List (Option ℚ) :=
  xs.map (rps_score xs)

/-- Pandas `close.pct_change(periods=p, fill_method=None)` on one instrument's
close column: entry `i` is `close[i]/close[i-p] - 1` when `i ≥ p` and both
cells are numeric, NaN otherwise (`rpstool.py` line 40). -/
def pct_change (closes : List (Option ℚ)) (p : ℕ) : List (Option ℚ) :=
  (List.range closes.length).map (fun i =>
    if p ≤ i then
      match closes.getD (i - p) none, closes.getD i none with
      | some c0, some c => some (c / c0 - 1)
      | _, _ => none
    else none)

/-- `pct_changes.iloc[-1]` for one instrument: its latest period-`p` change. -/
def lastPctChange (closes : List (Option ℚ)) (p : ℕ) : Option ℚ :=
  (pct_change closes p).getLastD none

/-- The latest period-`p` changes of a universe (code ↦ close column),
in iteration order. -/
def latestChanges (u : List (String × List (Option ℚ))) (p : ℕ) : List (Option ℚ) :=
  u.map (fun cs => lastPctChange cs.2 p)

/-- The RPS score `calculate_rps` attaches to an instrument with close column
`s` when run over universe `u` with period `p`. -/
def scoreInUniv (u : List (String × List (Option ℚ))) (p : ℕ)
    (s : List (Option ℚ)) : Option ℚ :=
  rps_score (latestChanges u p) (lastPctChange s p)

/-- `calculate_rps(all_stocks_data, period)` over a universe: every instrument
gets the percentile of its latest change within the cross-section
(`rpstool.py` lines 38–45). -/
def calculate_rps_univ (u : List (String × List (Option ℚ))) (p : ℕ) :
    List (String × Option ℚ) :=
  u.map (fun cs => (cs.1, scoreInUniv u p cs.2))

/-- `checkrps.py` `calculate_rps` lines 44–46 at the level of the latest
changes: `better_count / total_valid * 100` where `better_count` counts valid
changes strictly below the target's and `total_valid` counts valid changes. -/
def checkrps_score (changes : List (Option ℚ)) (t : ℚ) : ℚ :=
  ((countLt (validChanges changes) t : ℚ) / ((validChanges changes).length : ℚ)) * 100

/-- `checkrps.py` lines 40–46: NaN target change gets a NaN score, otherwise
the strictly-below fraction times 100. -/
def checkrps_rps (changes : List (Option ℚ)) (target : Option ℚ) : Option ℚ :=
  match target with
  | none => none
  | some t => some (checkrps_score changes t)


theorem countLt_cons_of_lt {v x : ℚ} (h : v < x) (t : List ℚ) :
    countLt (v :: t) x = countLt t x + 1 := by
  simp [countLt, List.filter_cons, h]

theorem countLt_cons_of_not_lt {v x : ℚ} (h : ¬ v < x) (t : List ℚ) :
    countLt (v :: t) x = countLt t x := by
  simp [countLt, List.filter_cons, h]

theorem countEq_cons_of_eq {v x : ℚ} (h : v = x) (t : List ℚ) :
    countEq (v :: t) x = countEq t x + 1 := by
  simp [countEq, List.filter_cons, h]

theorem countEq_cons_of_ne {v x : ℚ} (h : v ≠ x) (t : List ℚ) :
    countEq (v :: t) x = countEq t x := by
  simp [countEq, List.filter_cons, h]

theorem countLt_eq_zero {t : List ℚ} {x : ℚ} (h : ∀ w ∈ t, ¬ w < x) :
    countLt t x = 0 := by
  simp only [countLt, List.length_eq_zero]
  exact List.filter_eq_nil_iff.mpr (fun a ha => by simpa using h a ha)

theorem countEq_eq_zero {t : List ℚ} {x : ℚ} (h : ∀ w ∈ t, w ≠ x) :
    countEq t x = 0 := by
  simp only [countEq, List.length_eq_zero]
  exact List.filter_eq_nil_iff.mpr (fun a ha => by simpa using h a ha)

theorem rankPositionsFrom_sorted (x : ℚ) :
    ∀ (s : List ℚ) (k : ℕ), s.Sorted (· ≤ ·) →
      rankPositionsFrom k s x = List.range' (k + countLt s x) (countEq s x)
  | [], k, _ => by simp [rankPositionsFrom, countLt, countEq]
  | v :: t, k, hs => by
    have hhead : ∀ b ∈ t, v ≤ b := (List.sorted_cons.mp hs).1
    have htail : t.Sorted (· ≤ ·) := (List.sorted_cons.mp hs).2
    have ih := rankPositionsFrom_sorted x t (k + 1) htail
    rcases lt_trichotomy v x with hlt | heq | hgt
    · rw [rankPositionsFrom, if_neg (ne_of_lt hlt), ih,
        countLt_cons_of_lt hlt, countEq_cons_of_ne (ne_of_lt hlt)]
      congr 1
      omega
    · have h0 : countLt t x = 0 :=
        countLt_eq_zero (fun w hw => not_lt.mpr (heq ▸ hhead w hw))
      rw [rankPositionsFrom, if_pos heq, ih, h0,
        countLt_cons_of_not_lt (by simp [heq]), countEq_cons_of_eq heq, h0]
      rw [List.range'_succ]
      congr 1
    · have h0 : countEq t x = 0 := by
        refine countEq_eq_zero (fun w hw hwx => ?_)
        exact absurd (hwx ▸ hhead w hw) (not_le.mpr hgt)
      have h0' : countLt t x = 0 := by
        refine countLt_eq_zero (fun w hw hwx => ?_)
        exact absurd (lt_of_le_of_lt (hhead w hw) hwx) (lt_asymm hgt)
      rw [rankPositionsFrom, if_neg (ne_of_gt hgt), ih,
        countLt_cons_of_not_lt (not_lt.mpr (le_of_lt hgt)), countEq_cons_of_ne (ne_of_gt hgt),
        h0, h0']
      simp

theorem sum_range'_cast :
    ∀ (n k : ℕ), (((List.range' k n).sum : ℕ) : ℚ) =
      (n : ℚ) * k + n * ((n : ℚ) - 1) / 2
  | 0, k => by simp
  | n + 1, k => by
    have ih := sum_range'_cast n (k + 1)
    rw [List.range'_succ, List.sum_cons]
    push_cast [ih]
    ring

theorem countLt_perm {l₁ l₂ : List ℚ} (h : l₁.Perm l₂) (x : ℚ) :
    countLt l₁ x = countLt l₂ x :=
  (h.filter _).length_eq

theorem countEq_perm {l₁ l₂ : List ℚ} (h : l₁.Perm l₂) (x : ℚ) :
    countEq l₁ x = countEq l₂ x :=
  (h.filter _).length_eq

theorem countEq_pos {l : List ℚ} {x : ℚ} (hx : x ∈ l) : 0 < countEq l x := by
  have hmem : x ∈ l.filter (fun v => decide (v = x)) :=
    List.mem_filter.mpr ⟨hx, by simp⟩
  exact List.length_pos.mpr (List.ne_nil_of_mem hmem)

theorem avgRank_eq {l : List ℚ} {x : ℚ} (hx : x ∈ l) :
    avgRank l x = (countLt l x : ℚ) + ((countEq l x : ℚ) + 1) / 2 := by
  have hperm : (l.insertionSort (· ≤ ·)).Perm l := List.perm_insertionSort _ l
  have hsort : (l.insertionSort (· ≤ ·)).Sorted (· ≤ ·) := List.sorted_insertionSort _ l
  have hb : 0 < countEq l x := countEq_pos hx
  unfold avgRank
  rw [rankPositionsFrom_sorted x _ 1 hsort, countLt_perm hperm, countEq_perm hperm,
    sum_range'_cast, List.length_range']
  have hb0 : ((countEq l x : ℚ)) ≠ 0 := by positivity
  field_simp
  ring



theorem length_filter_mono {p q : ℚ → Bool} (l : List ℚ) (h : ∀ v, p v = true → q v = true) :
    (l.filter p).length ≤ (l.filter q).length := by
  induction l with
  | nil => simp
  | cons v t ih =>
    by_cases hp : p v
    · have hq := h v hp
      simp [List.filter_cons, hp, hq]
      omega
    · by_cases hq : q v <;> simp [List.filter_cons, hp, hq] <;> omega

theorem countLt_add_countEq (l : List ℚ) (x : ℚ) :
    countLt l x + countEq l x = countLe l x := by
  induction l with
  | nil => simp [countLt, countEq, countLe]
  | cons v t ih =>
    rcases lt_trichotomy v x with h | h | h
    · rw [countLt_cons_of_lt h, countEq_cons_of_ne (ne_of_lt h)]
      have : countLe (v :: t) x = countLe t x + 1 := by
        simp [countLe, List.filter_cons, le_of_lt h]
      omega
    · rw [countLt_cons_of_not_lt (by simp [h]), countEq_cons_of_eq h]
      have : countLe (v :: t) x = countLe t x + 1 := by
        simp [countLe, List.filter_cons, le_of_eq h]
      omega
    · rw [countLt_cons_of_not_lt (not_lt.mpr (le_of_lt h)), countEq_cons_of_ne (ne_of_gt h)]
      have : countLe (v :: t) x = countLe t x := by
        simp [countLe, List.filter_cons, not_le.mpr h]
      omega

theorem countLe_le_length (l : List ℚ) (x : ℚ) : countLe l x ≤ l.length :=
  List.length_filter_le _ _

theorem countLe_le_countLt {x y : ℚ} (h : x < y) (l : List ℚ) :
    countLe l x ≤ countLt l y := by
  refine length_filter_mono l (fun v hv => ?_)
  simp only [decide_eq_true_eq] at hv ⊢
  exact lt_of_le_of_lt hv h

theorem countLt_mono {x y : ℚ} (h : x ≤ y) (l : List ℚ) :
    countLt l x ≤ countLt l y := by
  refine length_filter_mono l (fun v hv => ?_)
  simp only [decide_eq_true_eq] at hv ⊢
  exact lt_of_lt_of_le hv h

theorem avgRank_pos {l : List ℚ} {x : ℚ} (hx : x ∈ l) : 0 < avgRank l x := by
  rw [avgRank_eq hx]
  have hb := countEq_pos hx
  have hb' : (1 : ℚ) ≤ (countEq l x : ℚ) := by exact_mod_cast hb
  have ha : (0 : ℚ) ≤ (countLt l x : ℚ) := by positivity
  linarith

theorem avgRank_le_card {l : List ℚ} {x : ℚ} (hx : x ∈ l) :
    avgRank l x ≤ (l.length : ℚ) := by
  rw [avgRank_eq hx]
  have hb := countEq_pos hx
  have hb' : (1 : ℚ) ≤ (countEq l x : ℚ) := by exact_mod_cast hb
  have hle : countLt l x + countEq l x ≤ l.length := by
    rw [countLt_add_countEq]
    exact countLe_le_length l x
  have hle' : (countLt l x : ℚ) + (countEq l x : ℚ) ≤ (l.length : ℚ) := by
    exact_mod_cast hle
  linarith

theorem avgRank_lt_avgRank {l : List ℚ} {x y : ℚ} (hx : x ∈ l) (hy : y ∈ l) (hxy : x < y) :
    avgRank l x < avgRank l y := by
  rw [avgRank_eq hx, avgRank_eq hy]
  have hbx := countEq_pos hx
  have hby := countEq_pos hy
  have h1 : countLt l x + countEq l x ≤ countLt l y := by
    rw [countLt_add_countEq]
    exact countLe_le_countLt hxy l
  have h1' : (countLt l x : ℚ) + (countEq l x : ℚ) ≤ (countLt l y : ℚ) := by exact_mod_cast h1
  have hbx' : (1 : ℚ) ≤ (countEq l x : ℚ) := by exact_mod_cast hbx
  have hby' : (1 : ℚ) ≤ (countEq l y : ℚ) := by exact_mod_cast hby
  linarith



theorem avgRank_perm {l₁ l₂ : List ℚ} (h : l₁.Perm l₂) (x : ℚ) :
    avgRank l₁ x = avgRank l₂ x := by
  have hsort : l₁.insertionSort (· ≤ ·) = l₂.insertionSort (· ≤ ·) :=
    List.eq_of_perm_of_sorted
      (((List.perm_insertionSort _ l₁).trans h).trans (List.perm_insertionSort _ l₂).symm)
      (List.sorted_insertionSort _ l₁) (List.sorted_insertionSort _ l₂)
  rw [avgRank, avgRank, hsort]

theorem validChanges_perm {xs ys : List (Option ℚ)} (h : xs.Perm ys) :
    (validChanges xs).Perm (validChanges ys) :=
  h.filterMap id

theorem rps_score_perm {xs ys : List (Option ℚ)} (h : xs.Perm ys) (v : Option ℚ) :
    rps_score xs v = rps_score ys v := by
  have hv := validChanges_perm h
  cases v with
  | none => rfl
  | some x =>
    simp only [rps_score, Option.map_some']
    rw [avgRank_perm hv, hv.length_eq]

theorem checkrps_rps_perm {xs ys : List (Option ℚ)} (h : xs.Perm ys) (v : Option ℚ) :
    checkrps_rps xs v = checkrps_rps ys v := by
  have hv := validChanges_perm h
  cases v with
  | none => rfl
  | some t =>
    simp only [checkrps_rps, checkrps_score]
    rw [countLt_perm hv, hv.length_eq]

/-- The cross-section with the missing entries deleted. -/
def restrictValid (xs : List (Option ℚ)) : List (Option ℚ) :=
  (validChanges xs).map some

theorem validChanges_restrictValid (xs : List (Option ℚ)) :
    validChanges (restrictValid xs) = validChanges xs := by
  simp [restrictValid, validChanges, List.filterMap_map]



/-- Rounding to two decimals, as applied when scores are reported
(`round(latest["rps50"], 2)` and friends). Python/numpy round half to even;
this model rounds half away from the floor, the two agree away from exact
half-cent ties, which none of the verified inputs hits. -/
def round2 (q : ℚ) : ℚ := ((round (q * 100) : ℤ) : ℚ) / 100

/-- C1, counterexample: the single-instrument lookup (`checkrps.py`
`calculate_rps`) does not assign rank/n × 100. On the scenario universe with
period-50 changes [0.10, −0.05, 0.20] it reports 100/3 (displayed 33.33) for
the 0.10 instrument, 0 for the −0.05 instrument and 200/3 (66.67) for the
0.20 instrument — not the claimed 66.67 / 33.33 / 100. -/
theorem c1_checkrps_scenario_counterexample :
    checkrps_rps [some (1/10), some (-(1/20)), some (1/5)] (some (1/10)) = some (100/3) ∧
    checkrps_rps [some (1/10), some (-(1/20)), some (1/5)] (some (-(1/20))) = some 0 ∧
    checkrps_rps [some (1/10), some (-(1/20)), some (1/5)] (some (1/5)) = some (200/3) ∧
    (100 : ℚ)/3 ≠ 200/3 ∧ (0 : ℚ) ≠ 100/3 ∧ (200 : ℚ)/3 ≠ 100 := by
  refine ⟨?_, ?_, ?_, by norm_num, by norm_num, by norm_num⟩ <;>
    norm_num [checkrps_rps, checkrps_score, countLt, validChanges, List.filterMap_cons,
      List.filter]

/-- C1, amended: the batch ranker (`rpstool.py`/`train.py` `calculate_rps`)
assigns each valid change the average-rank percentile
(countLt + (countEq + 1)/2) / n × 100 — i.e. 1-indexed ascending rank with
ties averaged over the n valid observations, times 100/n — and on the
scenario universe [0.10, −0.05, 0.20] it computes exactly
[200/3, 100/3, 100], reported after 2-decimal rounding as
[66.67, 33.33, 100.0]. -/
theorem c1_rps_rank_formula :
    (∀ (xs : List (Option ℚ)) (x : ℚ), some x ∈ xs →
      rps_score xs (some x) =
        some (((countLt (validChanges xs) x : ℚ) +
            ((countEq (validChanges xs) x : ℚ) + 1) / 2) /
          ((validChanges xs).length : ℚ) * 100)) ∧
    calculate_rps_scores [some (1/10), some (-(1/20)), some (1/5)] =
      [some (200/3), some (100/3), some 100] ∧
    (calculate_rps_scores [some (1/10), some (-(1/20)), some (1/5)]).map
        (Option.map round2) =
      [some (6667/100), some (3333/100), some 100] := by
  refine ⟨?_, ?_, ?_⟩
  · intro xs x hx
    have hmem : x ∈ validChanges xs := by simpa [validChanges] using hx
    simp only [rps_score, Option.map_some']
    rw [avgRank_eq hmem]
  · norm_num [calculate_rps_scores, rps_score, avgRank, rankPositionsFrom, validChanges,
      List.insertionSort, List.orderedInsert, List.filterMap_cons]
  · norm_num [calculate_rps_scores, rps_score, avgRank, rankPositionsFrom, validChanges,
      List.insertionSort, List.orderedInsert, List.filterMap_cons, round2, round_eq]

/-- C1 witness: the rank formula instantiated on the scenario's 0.20 change. -/
theorem c1_rps_rank_formula_witness :
    rps_score [some (1/10), some (-(1/20)), some (1/5)] (some (1/5)) =
      some (((countLt (validChanges [some (1/10), some (-(1/20)), some (1/5)]) (1/5) : ℚ) +
          ((countEq (validChanges [some (1/10), some (-(1/20)), some (1/5)]) (1/5) : ℚ) + 1) / 2) /
        ((validChanges [some (1/10), some (-(1/20)), some (1/5)]).length : ℚ) * 100) :=
  c1_rps_rank_formula.1 [some (1/10), some (-(1/20)), some (1/5)] (1/5) (by norm_num)



/-- C2, counterexample: the single-instrument lookup assigns percentile 0 to
the instrument with the lowest valid change, so not every computed RPS
percentile lies in the half-open interval (0,100]. -/
theorem c2_checkrps_zero_counterexample :
    checkrps_rps [some (1 : ℚ), some 2] (some 1) = some 0 ∧ ¬ (0 < (0 : ℚ)) := by
  constructor
  · norm_num [checkrps_rps, checkrps_score, countLt, validChanges, List.filterMap_cons,
      List.filter]
  · norm_num

/-- C2, amended: the batch ranker's percentiles over the valid changes lie in
(0,100] and are monotone in the underlying change; the lookup variant's
percentiles lie in [0,100) — the minimum valid change receives 0 — and are
likewise monotone. -/
theorem c2_rps_range_monotone :
    (∀ (xs : List (Option ℚ)) (x : ℚ) (r : ℚ), some x ∈ xs →
       rps_score xs (some x) = some r → 0 < r ∧ r ≤ 100) ∧
    (∀ (xs : List (Option ℚ)) (x y rx ry : ℚ), some x ∈ xs → some y ∈ xs → x < y →
       rps_score xs (some x) = some rx → rps_score xs (some y) = some ry → rx ≤ ry) ∧
    (∀ (xs : List (Option ℚ)) (x : ℚ) (r : ℚ), some x ∈ xs →
       checkrps_rps xs (some x) = some r → 0 ≤ r ∧ r < 100) ∧
    (∀ (xs : List (Option ℚ)) (x y rx ry : ℚ), some x ∈ xs → some y ∈ xs → x ≤ y →
       checkrps_rps xs (some x) = some rx → checkrps_rps xs (some y) = some ry → rx ≤ ry) := by
  refine ⟨?_, ?_, ?_, ?_⟩
  · intro xs x r hx hr
    have hmem : x ∈ validChanges xs := by simpa [validChanges] using hx
    have hn : 0 < ((validChanges xs).length : ℚ) := by
      exact_mod_cast List.length_pos.mpr (List.ne_nil_of_mem hmem)
    simp only [rps_score, Option.map_some', Option.some.injEq] at hr
    subst hr
    constructor
    · have := avgRank_pos hmem
      positivity
    · have hle := avgRank_le_card hmem
      have h1 : avgRank (validChanges xs) x / ((validChanges xs).length : ℚ) ≤ 1 :=
        (div_le_one hn).mpr hle
      nlinarith
  · intro xs x y rx ry hx hy hxy hrx hry
    have hmx : x ∈ validChanges xs := by simpa [validChanges] using hx
    have hmy : y ∈ validChanges xs := by simpa [validChanges] using hy
    have hn : 0 < ((validChanges xs).length : ℚ) := by
      exact_mod_cast List.length_pos.mpr (List.ne_nil_of_mem hmx)
    simp only [rps_score, Option.map_some', Option.some.injEq] at hrx hry
    subst hrx
    subst hry
    have hlt := avgRank_lt_avgRank hmx hmy hxy
    have h1 : avgRank (validChanges xs) x / ((validChanges xs).length : ℚ) ≤
        avgRank (validChanges xs) y / ((validChanges xs).length : ℚ) := by
      gcongr
    nlinarith
  · intro xs x r hx hr
    have hmem : x ∈ validChanges xs := by simpa [validChanges] using hx
    have hnn : 0 < (validChanges xs).length := List.length_pos.mpr (List.ne_nil_of_mem hmem)
    have hn : 0 < ((validChanges xs).length : ℚ) := by exact_mod_cast hnn
    simp only [checkrps_rps, Option.some.injEq] at hr
    subst hr
    unfold checkrps_score
    constructor
    · positivity
    · have hlt : countLt (validChanges xs) x < (validChanges xs).length := by
        have h1 : countLt (validChanges xs) x + countEq (validChanges xs) x =
            countLe (validChanges xs) x := countLt_add_countEq _ _
        have h2 := countLe_le_length (validChanges xs) x
        have h3 := countEq_pos hmem
        omega
      have hlt' : (countLt (validChanges xs) x : ℚ) < ((validChanges xs).length : ℚ) := by
        exact_mod_cast hlt
      have h1 : (countLt (validChanges xs) x : ℚ) / ((validChanges xs).length : ℚ) < 1 :=
        (div_lt_one hn).mpr hlt'
      nlinarith
  · intro xs x y rx ry hx hy hxy hrx hry
    have hmx : x ∈ validChanges xs := by simpa [validChanges] using hx
    have hn : 0 < ((validChanges xs).length : ℚ) := by
      exact_mod_cast List.length_pos.mpr (List.ne_nil_of_mem hmx)
    simp only [checkrps_rps, Option.some.injEq] at hrx hry
    subst hrx
    subst hry
    unfold checkrps_score
    have hmono := countLt_mono hxy (validChanges xs)
    have hmono' : (countLt (validChanges xs) x : ℚ) ≤ (countLt (validChanges xs) y : ℚ) := by
      exact_mod_cast hmono
    gcongr

/-- C2 witness: the bounds and monotonicity instantiated on the concrete
universe [1, 2]: the top instrument scores 100 ∈ (0,100] under the batch
ranker, the ranker is monotone there, and the lookup variant stays in [0,100)
and monotone. -/
theorem c2_rps_range_monotone_witness :
    ((0 : ℚ) < 100 ∧ (100 : ℚ) ≤ 100) ∧ ((50 : ℚ) ≤ 100) ∧
    ((0 : ℚ) ≤ 0 ∧ (0 : ℚ) < 100) ∧ ((0 : ℚ) ≤ 50) := by
  refine ⟨?_, ?_, ?_, ?_⟩
  · exact c2_rps_range_monotone.1 [some 1, some 2] 2 100 (by norm_num)
      (by norm_num [rps_score, avgRank, rankPositionsFrom, validChanges, List.insertionSort,
        List.orderedInsert, List.filterMap_cons])
  · exact c2_rps_range_monotone.2.1 [some 1, some 2] 1 2 50 100 (by norm_num) (by norm_num)
      (by norm_num)
      (by norm_num [rps_score, avgRank, rankPositionsFrom, validChanges, List.insertionSort,
        List.orderedInsert, List.filterMap_cons])
      (by norm_num [rps_score, avgRank, rankPositionsFrom, validChanges, List.insertionSort,
        List.orderedInsert, List.filterMap_cons])
  · exact c2_rps_range_monotone.2.2.1 [some 1, some 2] 1 0 (by norm_num)
      (by norm_num [checkrps_rps, checkrps_score, countLt, validChanges, List.filterMap_cons,
        List.filter])
  · exact c2_rps_range_monotone.2.2.2 [some 1, some 2] 1 2 0 50 (by norm_num) (by norm_num)
      (by norm_num)
      (by norm_num [checkrps_rps, checkrps_score, countLt, validChanges, List.filterMap_cons,
        List.filter])
      (by norm_num [checkrps_rps, checkrps_score, countLt, validChanges, List.filterMap_cons,
        List.filter])



/-- C3: in both rankers a missing latest change yields a missing score (never
0 or 100), and deleting the missing entries from the cross-section changes no
valid instrument's score — the ranking denominator and counts only ever see
the valid observations. -/
theorem c3_missing_excluded :
    (∀ xs : List (Option ℚ), rps_score xs none = none) ∧
    (∀ (xs : List (Option ℚ)) (v : Option ℚ),
      rps_score (restrictValid xs) v = rps_score xs v) ∧
    (∀ xs : List (Option ℚ), checkrps_rps xs none = none) ∧
    (∀ (xs : List (Option ℚ)) (v : Option ℚ),
      checkrps_rps (restrictValid xs) v = checkrps_rps xs v) := by
  refine ⟨fun xs => rfl, ?_, fun xs => rfl, ?_⟩
  · intro xs v
    cases v with
    | none => rfl
    | some x =>
      simp only [rps_score, Option.map_some', validChanges_restrictValid]
  · intro xs v
    cases v with
    | none => rfl
    | some t =>
      simp only [checkrps_rps, checkrps_score, validChanges_restrictValid]

/-- C4: permuting the instrument-code-to-series mapping permutes the rows of
`calculate_rps`'s output accordingly and changes no instrument's RPS score. -/
theorem c4_rps_perm_invariant (u u' : List (String × List (Option ℚ))) (p : ℕ)
    (h : u.Perm u') :
    (calculate_rps_univ u p).Perm (calculate_rps_univ u' p) ∧
    ∀ c s, (c, s) ∈ u → scoreInUniv u p s = scoreInUniv u' p s := by
  have hsc : ∀ s, scoreInUniv u p s = scoreInUniv u' p s := by
    intro s
    unfold scoreInUniv
    exact rps_score_perm (h.map _) _
  constructor
  · unfold calculate_rps_univ
    have he : (u.map (fun cs => (cs.1, scoreInUniv u p cs.2))) =
        u.map (fun cs => (cs.1, scoreInUniv u' p cs.2)) := by
      simp only [hsc]
    rw [he]
    exact h.map _
  · exact fun c s _ => hsc s

/-- C4 witness: swapping a two-instrument universe permutes the output rows
and leaves instrument "000001"'s score unchanged. -/
theorem c4_rps_perm_invariant_witness :
    (calculate_rps_univ
        [("000001", [some 1, some 2]), ("000002", [some 1, some 3])] 1).Perm
      (calculate_rps_univ
        [("000002", [some 1, some 3]), ("000001", [some 1, some 2])] 1) ∧
    scoreInUniv [("000001", [some 1, some 2]), ("000002", [some 1, some 3])] 1
        [some 1, some 2] =
      scoreInUniv [("000002", [some 1, some 3]), ("000001", [some 1, some 2])] 1
        [some 1, some 2] := by
  have hperm : ([("000001", [some (1:ℚ), some 2]), ("000002", [some 1, some 3])]).Perm
      [("000002", [some (1:ℚ), some 3]), ("000001", [some 1, some 2])] :=
    List.Perm.swap _ _ _
  have h := c4_rps_perm_invariant _ _ 1 hperm
  exact ⟨h.1, h.2 "000001" [some 1, some 2] (by simp)⟩



/-- One instrument's indicator frame: date-indexed close column, moving-average
columns, and the RPS columns, which `calculate_rps` assigns as a scalar
broadcast over all rows, so a single `Option ℚ` faithfully models what
`df.iloc[-1]["rpsN"]` reads back. -/
structure Frame where
  dates : List ℤ
  close : List (Option ℚ)
  ma40 : List (Option ℚ)
  ma60 : List (Option ℚ)
  ma120 : List (Option ℚ)
  ma250 : List (Option ℚ)
  rps50 : Option ℚ
  rps120 : Option ℚ
  rps250 : Option ℚ

/-- `column.iloc[-1]`, NaN on an empty column. -/
def olast (l : List (Option ℚ)) : Option ℚ := l.getLastD none

/-- All cells numeric, or `none` if any is missing. -/
def allSome : List (Option ℚ) → Option (List ℚ)
  | [] => some []
  | none :: _ => none
  | some x :: t => (allSome t).map (fun l => x :: l)

/-- Pandas `close.rolling(window=w).mean()`: NaN for the first w−1 rows and
whenever the trailing window contains a NaN, else the arithmetic mean of the
trailing `w` closes (`rpstool.py` lines 33–36). -/
def movingAverage (closes : List (Option ℚ)) (w : ℕ) : List (Option ℚ) :=
  (List.range closes.length).map (fun i =>
    if i + 1 < w then none
    else
      match allSome ((closes.drop (i + 1 - w)).take w) with
      | some vs => some (vs.sum / (w : ℚ))
      | none => none)

/-- `calculate_moving_averages` of `rpstool.py`: attaches ma40/ma60/ma120/ma250
columns; the RPS columns are untouched. -/
def calculate_moving_averages (f : Frame) : Frame :=
  { f with
    ma40 := movingAverage f.close 40
    ma60 := movingAverage f.close 60
    ma120 := movingAverage f.close 120
    ma250 := movingAverage f.close 250 }

/-- `df[pred(df.index)]["close"]`: the close cells of the rows whose date
satisfies `pred`. -/
def selectClose (f : Frame) (pred : ℤ → Bool) : List (Option ℚ) :=
  ((f.dates.zip f.close).filter (fun dc => pred dc.1)).map Prod.snd

/-- `rpstool.py` `calculate_max_gain_this_year` lines 47–53. `.error ()`
models a raised `IndexError`: on an empty frame (`df.index[0]`), and — when
the first bar is dated on/before `yearStart` but every bar is dated strictly
before it — on the empty year selection (`year_data['close'].iloc[0]`), a
reachable path for a stale cache whose bars all predate the year start.
`.ok none` models a `None` return (first bar strictly after `yearStart`,
`df.index[0] > YEAR_START_DATE`) or a NaN gain (NaN year-start close);
`.ok (some g)` the percentage gain from the first close on/after `yearStart`
to the year's maximum close, rounded to 2 decimals. The all-NaN-selection
arm cannot fire once the first selected close is numeric. -/
def calculate_max_gain_this_year (yearStart : ℤ) (f : Frame) : Except Unit (Option ℚ) :=
  match f.dates.head? with
  | none => .error ()
  | some d0 =>
    if yearStart < d0 then .ok none
    else
      match (selectClose f (fun d => decide (yearStart ≤ d))).head? with
      | none => .error ()
      | some none => .ok none
      | some (some s0) =>
        match omax (selectClose f (fun d => decide (yearStart ≤ d))) with
        | none => .ok none
        | some m => .ok (some (round2 ((m - s0) / s0 * 100)))

/-- `rpstool.py` line 71: `max_gain_this_year is not None and
max_gain_this_year <= 50`. A NaN gain also fails the `<= 50` float
comparison, so `.ok none ↦ false` covers both the `None` and the NaN case;
an `IndexError` raised inside `calculate_max_gain_this_year` propagates. -/
def max_gain_condition (yearStart : ℤ) (f : Frame) : Except Unit Bool :=
  match calculate_max_gain_this_year yearStart f with
  | .error e => .error e
  | .ok (some g) => .ok (decide (g ≤ 50))
  | .ok none => .ok false

/-- `rpstool.py` line 64: `latest["close"] > latest["ma40"] and
latest["ma60"] > latest["ma120"] and latest["ma60"] > latest["ma250"]`. -/
def ma_condition (f : Frame) : Bool :=
  ogt (olast f.close) (olast f.ma40) && ogt (olast f.ma60) (olast f.ma120) &&
    ogt (olast f.ma60) (olast f.ma250)

/-- Modelled from the spec's words, for comparison with `ma_condition`: close
above the shortest moving average AND the longer averages strictly ordered
ma60 > ma120 > ma250. -/
def spec_ma_alignment (f : Frame) : Bool :=
  ogt (olast f.close) (olast f.ma40) && ogt (olast f.ma60) (olast f.ma120) &&
    ogt (olast f.ma120) (olast f.ma250)

/-- `rpstool.py` `filter_criteria` lines 55–73, parameterised by the run time
`now` and `yearStart` (the script's `datetime.now()` and `YEAR_START_DATE`);
"30 days ago" is `now - 30` on the day timeline. Python evaluates every
condition expression before `all([...])`; the only fallible one is the
max-gain computation on line 70 (whose `IndexError` propagates out of the
predicate, `.error`), every other condition is a total NaN-tolerant float
comparison. An empty frame also raises (`df.iloc[-1]`, line 56), matched
here by the max-gain model erroring on an empty frame. -/
def filter_criteria (now yearStart : ℤ) (f : Frame) : Except Unit Bool :=
  let twentyAgo := now - 30
  let yearHigh := omax (selectClose f (fun d => decide (yearStart ≤ d) && decide (d ≤ twentyAgo)))
  let recentHigh := oge (omax (selectClose f (fun d => decide (twentyAgo < d)))) yearHigh
  let rpsCond := match f.rps120, f.rps250 with
    | some a, some b => decide (185 < a + b)
    | _, _ => false
  let drawdown := match omax (selectClose f (fun d => decide (twentyAgo < d))), olast f.close with
    | some m, some c => decide ((m - c) / m ≤ 3/10)
    | _, _ => false
  match max_gain_condition yearStart f with
  | .error e => .error e
  | .ok gainCond =>
    .ok (recentHigh && rpsCond && ma_condition f && drawdown && gainCond)

/-- One row of the final selection table (`process_stock`'s dict). -/
structure ScreenRec where
  code : String
  rps50 : Option ℚ
  rps120 : Option ℚ
  rps250 : Option ℚ
  maxYearlyReturn : Option ℚ
deriving DecidableEq

/-- `rpstool.py` `process_stock` lines 75–88: instruments with fewer than 250
bars are skipped (`.ok none`), else moving averages are attached and the
filter decides; an exception raised inside `filter_criteria` (or by the
second max-gain call on line 86) propagates out of the worker. -/
def process_stock (now yearStart : ℤ) (code : String) (f : Frame) :
    Except Unit (Option ScreenRec) :=
  if 250 ≤ f.dates.length then
    match filter_criteria now yearStart (calculate_moving_averages f) with
    | .error e => .error e
    | .ok true =>
      match calculate_max_gain_this_year yearStart (calculate_moving_averages f) with
      | .error e => .error e
      | .ok g =>
        .ok (some { code := code
                    rps50 := (calculate_moving_averages f).rps50.map round2
                    rps120 := (calculate_moving_averages f).rps120.map round2
                    rps250 := (calculate_moving_averages f).rps250.map round2
                    maxYearlyReturn := g })
    | .ok false => .ok none
  else .ok none



/-- C5, counterexample: a latest bar with close 20, ma40 = 10, ma60 = 10,
ma120 = 5, ma250 = 8 has ma60 > ma120, ma60 > ma250 but ma250 ≥ ma120, so the
spec's strict ordering ma60 > ma120 > ma250 fails — yet the code's alignment
condition accepts it (line 64 never compares ma120 with ma250). -/
theorem c5_ma_ordering_counterexample :
    ma_condition { dates := [0], close := [some 20], ma40 := [some 10], ma60 := [some 10],
                   ma120 := [some 5], ma250 := [some 8],
                   rps50 := none, rps120 := none, rps250 := none } = true ∧
    spec_ma_alignment { dates := [0], close := [some 20], ma40 := [some 10], ma60 := [some 10],
                        ma120 := [some 5], ma250 := [some 8],
                        rps50 := none, rps120 := none, rps250 := none } = false := by
  constructor <;> norm_num [ma_condition, spec_ma_alignment, ogt, olast]

/-- C5, amended: with all five latest cells numeric, the first-pass alignment
condition holds iff close > ma40 and ma60 > ma120 and ma60 > ma250; the
relative order of ma120 and ma250 is not constrained. -/
theorem c5_ma_condition_characterization (f : Frame) (a b c d e : ℚ)
    (h1 : olast f.close = some a) (h2 : olast f.ma40 = some b)
    (h3 : olast f.ma60 = some c) (h4 : olast f.ma120 = some d)
    (h5 : olast f.ma250 = some e) :
    ma_condition f = true ↔ (b < a ∧ d < c ∧ e < c) := by
  simp [ma_condition, h1, h2, h3, h4, h5, ogt, and_assoc]

/-- C5 witness: the characterization instantiated on the concrete latest bar
(close 20, ma40 10, ma60 10, ma120 5, ma250 8). -/
theorem c5_ma_condition_characterization_witness :
    ma_condition { dates := [0], close := [some 20], ma40 := [some 10], ma60 := [some 10],
                   ma120 := [some 5], ma250 := [some 8],
                   rps50 := none, rps120 := none, rps250 := none } = true ↔
      ((10 : ℚ) < 20 ∧ (5 : ℚ) < 10 ∧ (8 : ℚ) < 10) :=
  c5_ma_condition_characterization _ 20 10 10 5 8 (by norm_num [olast]) (by norm_num [olast])
    (by norm_num [olast]) (by norm_num [olast]) (by norm_num [olast])

/-- C7, counterexample: a series whose first bar is dated exactly on the year
start (no bar strictly before it) is NOT treated as "not computable": with
dates [0, 1], closes [100, 120] and yearStart 0, the code computes a 20% gain
and the cap condition passes, where the claim requires `None` and a failing
condition. -/
theorem c7_jan1_counterexample :
    (({ dates := [0, 1], close := [some 100, some 120], ma40 := [], ma60 := [], ma120 := [],
        ma250 := [], rps50 := none, rps120 := none, rps250 := none } : Frame).dates.all
      (fun d => decide (0 ≤ d)) = true) ∧
    calculate_max_gain_this_year 0
      { dates := [0, 1], close := [some 100, some 120], ma40 := [], ma60 := [], ma120 := [],
        ma250 := [], rps50 := none, rps120 := none, rps250 := none } = Except.ok (some 20) ∧
    max_gain_condition 0
      { dates := [0, 1], close := [some 100, some 120], ma40 := [], ma60 := [], ma120 := [],
        ma250 := [], rps50 := none, rps120 := none, rps250 := none } = Except.ok true := by
  refine ⟨by decide, ?_, ?_⟩ <;>
    norm_num [calculate_max_gain_this_year, max_gain_condition, selectClose, omax,
      validChanges, List.filterMap_cons, round2, round_eq, List.filter]

/-- C7, amended: for every nonempty series all of whose bars are dated
strictly after the year start (so in particular none on or before it), the
max-yearly-gain is `None` and the cap condition is false, without an error. -/
theorem c7_no_prior_year_data (yearStart : ℤ) (f : Frame) (hne : f.dates ≠ [])
    (h : ∀ d ∈ f.dates, yearStart < d) :
    calculate_max_gain_this_year yearStart f = Except.ok none ∧
    max_gain_condition yearStart f = Except.ok false := by
  obtain ⟨d0, t, he⟩ := List.exists_cons_of_ne_nil hne
  have hd0 : yearStart < d0 := h d0 (by rw [he]; exact List.mem_cons_self _ _)
  have hgain : calculate_max_gain_this_year yearStart f = Except.ok none := by
    unfold calculate_max_gain_this_year
    rw [he]
    simp [hd0]
  refine ⟨hgain, ?_⟩
  unfold max_gain_condition
  rw [hgain]

/-- C7 witness: a one-bar series dated after the year start is excluded. -/
theorem c7_no_prior_year_data_witness :
    calculate_max_gain_this_year 0
      { dates := [5], close := [some 1], ma40 := [], ma60 := [], ma120 := [],
        ma250 := [], rps50 := none, rps120 := none,
        rps250 := none } = Except.ok none ∧
    max_gain_condition 0
      { dates := [5], close := [some 1], ma40 := [], ma60 := [], ma120 := [],
        ma250 := [], rps50 := none, rps120 := none,
        rps250 := none } = Except.ok false :=
  c7_no_prior_year_data 0 _ (by simp) (by simp)



theorem lastPctChange_none_of_le {closes : List (Option ℚ)} {p : ℕ}
    (h : closes.length ≤ p) : lastPctChange closes p = none := by
  unfold lastPctChange pct_change
  cases hn : closes.length with
  | zero => simp
  | succ m =>
    rw [List.range_succ, List.map_append]
    have hm : ¬ p ≤ m := by omega
    simp [hm]

/-- The filtered zip of two same-length columns keeps a row whose date
satisfies the predicate, so it is nonempty. -/
theorem filter_zip_ne_nil (pred : ℤ → Bool) :
    ∀ (ds : List ℤ) (cs : List (Option ℚ)), cs.length = ds.length →
      ∀ d ∈ ds, pred d = true →
      ((ds.zip cs).filter (fun dc => pred dc.1)) ≠ []
  | [], _, _, d, hd, _ => absurd hd (List.not_mem_nil d)
  | d0 :: dt, [], hlen, _, _, _ => by simp at hlen
  | d0 :: dt, c0 :: ct, hlen, d, hd, hp => by
    by_cases h0 : pred d0
    · simp [List.zip_cons_cons, List.filter_cons, h0]
    · have hd' : d ∈ dt := by
        rcases List.mem_cons.mp hd with rfl | hmem
        · exact absurd hp h0
        · exact hmem
      have hlen' : ct.length = dt.length := by simpa using hlen
      have ih := filter_zip_ne_nil pred dt ct hlen' d hd' hp
      simp only [List.zip_cons_cons, List.filter_cons, h0]
      simpa using ih

/-- If some bar is dated on/after the year start (and the columns are
index-aligned), the year selection is nonempty, so the max-gain computation
terminates normally — it cannot hit the `iloc[0]` raise. -/
theorem max_gain_ok_of_bar_in_year {yearStart : ℤ} {f : Frame}
    (hlen : f.close.length = f.dates.length)
    (hbar : ∃ d ∈ f.dates, yearStart ≤ d) :
    ∃ g, calculate_max_gain_this_year yearStart f = Except.ok g := by
  obtain ⟨d, hd, hyd⟩ := hbar
  have hne : f.dates ≠ [] := List.ne_nil_of_mem hd
  obtain ⟨d0, t, he⟩ := List.exists_cons_of_ne_nil hne
  have hh : f.dates.head? = some d0 := by rw [he]; rfl
  have hsel : selectClose f (fun d => decide (yearStart ≤ d)) ≠ [] := by
    have hfz := filter_zip_ne_nil (fun d => decide (yearStart ≤ d)) f.dates f.close hlen d hd
      (decide_eq_true hyd)
    simp only [selectClose, ne_eq, List.map_eq_nil_iff]
    exact hfz
  obtain ⟨c0, cs, hce⟩ := List.exists_cons_of_ne_nil hsel
  by_cases h0 : yearStart < d0
  · refine ⟨none, ?_⟩
    unfold calculate_max_gain_this_year
    rw [hh]
    simp [h0]
  · unfold calculate_max_gain_this_year
    rw [hh]
    cases c0 with
    | none =>
      refine ⟨none, ?_⟩
      simp [h0, hce]
    | some s0 =>
      rw [hce]
      simp [h0, omax]

/-- With a NaN rps120 or rps250, `filter_criteria` returns false whenever the
max-gain computation terminates normally: the NaN RPS-sum comparison makes
the conjunction false. -/
theorem filter_criteria_nan_ok (now yearStart : ℤ) (f : Frame) (b : Bool)
    (h : f.rps120 = none ∨ f.rps250 = none)
    (hmg : max_gain_condition yearStart f = Except.ok b) :
    filter_criteria now yearStart f = Except.ok false := by
  unfold filter_criteria
  rw [hmg]
  rcases h with h | h <;> simp [h]

/-- With a NaN rps120 or rps250, `filter_criteria` either raises (the
max-gain `IndexError`) or returns false — never true. -/
theorem filter_criteria_nan (now yearStart : ℤ) (f : Frame)
    (h : f.rps120 = none ∨ f.rps250 = none) :
    filter_criteria now yearStart f = Except.error () ∨
    filter_criteria now yearStart f = Except.ok false := by
  cases hmg : max_gain_condition yearStart f with
  | error e =>
    left
    cases e
    unfold filter_criteria
    rw [hmg]
  | ok b =>
    right
    exact filter_criteria_nan_ok now yearStart f b h hmg

/-- A 250-bar stale frame: bars dated −300 … −51 (all strictly before day 0),
constant close 1, NaN RPS columns — the shape `load_cache` can return for an
instrument whose cache has no bars in the current calendar year. -/
def staleFrame : Frame :=
  { dates := (List.range 250).map (fun i => (i : ℤ) - 300)
    close := List.replicate 250 (some 1)
    ma40 := []
    ma60 := []
    ma120 := []
    ma250 := []
    rps50 := none
    rps120 := none
    rps250 := none }

set_option maxRecDepth 8192 in
/-- C10, counterexample: on a 250-bar frame with NaN RPS whose bars all
predate the year start, the guard `df.index[0] > YEAR_START_DATE` does not
fire, `year_data` is empty, and `year_data['close'].iloc[0]` raises
`IndexError` (modelled `.error ()`): `filter_criteria` raises instead of
returning False, and the exception propagates out of `process_stock` — so
"returns False without raising" is false as a universal statement. -/
theorem c10_stale_frame_counterexample :
    staleFrame.rps120 = none ∧
    filter_criteria 0 0 staleFrame = Except.error () ∧
    filter_criteria 0 0 staleFrame ≠ Except.ok false ∧
    process_stock 0 0 "600000" staleFrame = Except.error () := by
  have h1 : filter_criteria 0 0 staleFrame = Except.error () := rfl
  have h2 : process_stock 0 0 "600000" staleFrame = Except.error () := rfl
  refine ⟨rfl, h1, ?_, h2⟩
  rw [h1]
  simp

/-- C10, amended: a frame with NaN latest rps120 or rps250 never passes the
filter and never yields an output row — `filter_criteria` either returns
false or raises, so such an instrument never appears in the output; when
moreover some bar is dated on/after the year start (so the max-gain
computation cannot hit its empty-selection raise), `filter_criteria` returns
false and `process_stock` returns no row, without raising. A series of
exactly 250 bars has no 250-period change, and `calculate_rps` then attaches
a NaN rps250 to it. -/
theorem c10_nan_rps_never_selected :
    (∀ (now yearStart : ℤ) (f : Frame), f.rps120 = none ∨ f.rps250 = none →
       filter_criteria now yearStart f ≠ Except.ok true) ∧
    (∀ (now yearStart : ℤ) (code : String) (f : Frame) (r : ScreenRec),
       f.rps120 = none ∨ f.rps250 = none →
       process_stock now yearStart code f ≠ Except.ok (some r)) ∧
    (∀ (now yearStart : ℤ) (f : Frame), f.rps120 = none ∨ f.rps250 = none →
       f.close.length = f.dates.length → (∃ d ∈ f.dates, yearStart ≤ d) →
       filter_criteria now yearStart f = Except.ok false) ∧
    (∀ (now yearStart : ℤ) (code : String) (f : Frame),
       f.rps120 = none ∨ f.rps250 = none →
       f.close.length = f.dates.length → (∃ d ∈ f.dates, yearStart ≤ d) →
       process_stock now yearStart code f = Except.ok none) ∧
    (∀ closes : List (Option ℚ), closes.length = 250 → lastPctChange closes 250 = none) ∧
    (∀ (u : List (String × List (Option ℚ))) (s : List (Option ℚ)),
       lastPctChange s 250 = none → scoreInUniv u 250 s = none) := by
  have hrps : ∀ f : Frame, f.rps120 = none ∨ f.rps250 = none →
      (calculate_moving_averages f).rps120 = none ∨
      (calculate_moving_averages f).rps250 = none := by
    intro f h
    rcases h with h | h
    · exact Or.inl h
    · exact Or.inr h
  have hfilter3 : ∀ (now yearStart : ℤ) (f : Frame),
      f.rps120 = none ∨ f.rps250 = none →
      f.close.length = f.dates.length → (∃ d ∈ f.dates, yearStart ≤ d) →
      filter_criteria now yearStart f = Except.ok false := by
    intro now yearStart f h hlen hbar
    obtain ⟨g, hg⟩ := max_gain_ok_of_bar_in_year hlen hbar
    have hb : ∃ b, max_gain_condition yearStart f = Except.ok b := by
      unfold max_gain_condition
      rw [hg]
      cases g with
      | none => exact ⟨false, rfl⟩
      | some g0 => exact ⟨decide (g0 ≤ 50), rfl⟩
    obtain ⟨b, hb⟩ := hb
    exact filter_criteria_nan_ok now yearStart f b h hb
  refine ⟨?_, ?_, hfilter3, ?_, ?_, ?_⟩
  · intro now yearStart f h hcon
    rcases filter_criteria_nan now yearStart f h with h' | h' <;> rw [h'] at hcon <;>
      simp at hcon
  · intro now yearStart code f r h
    by_cases h250 : 250 ≤ f.dates.length
    · have h' := filter_criteria_nan now yearStart (calculate_moving_averages f) (hrps f h)
      unfold process_stock
      rw [if_pos h250]
      rcases h' with h' | h' <;> rw [h'] <;> simp
    · unfold process_stock
      rw [if_neg h250]
      simp
  · intro now yearStart code f h hlen hbar
    by_cases h250 : 250 ≤ f.dates.length
    · have hg : filter_criteria now yearStart (calculate_moving_averages f) =
          Except.ok false :=
        hfilter3 now yearStart (calculate_moving_averages f) (hrps f h) hlen hbar
      unfold process_stock
      rw [if_pos h250, hg]
    · unfold process_stock
      rw [if_neg h250]
  · intro closes h
    exact lastPctChange_none_of_le (le_of_eq h)
  · intro u s h
    unfold scoreInUniv
    rw [h]
    rfl

/-- C10 witness: a one-bar frame dated on the year start with NaN RPS fails
the filter (returning false, not raising) and yields no row and can never
pass; a 250-bar constant series has no 250-period change; a NaN change
scores NaN in any universe. -/
theorem c10_nan_rps_never_selected_witness :
    filter_criteria 0 0
      { dates := [0], close := [some 1], ma40 := [], ma60 := [], ma120 := [],
        ma250 := [], rps50 := none, rps120 := none,
        rps250 := none } ≠ Except.ok true ∧
    process_stock 0 0 "600000"
      { dates := [0], close := [some 1], ma40 := [], ma60 := [], ma120 := [],
        ma250 := [], rps50 := none, rps120 := none,
        rps250 := none } ≠ Except.ok (some
          { code := "600000", rps50 := none, rps120 := none, rps250 := none,
            maxYearlyReturn := none }) ∧
    filter_criteria 0 0
      { dates := [0], close := [some 1], ma40 := [], ma60 := [], ma120 := [],
        ma250 := [], rps50 := none, rps120 := none,
        rps250 := none } = Except.ok false ∧
    process_stock 0 0 "600000"
      { dates := [0], close := [some 1], ma40 := [], ma60 := [], ma120 := [],
        ma250 := [], rps50 := none, rps120 := none,
        rps250 := none } = Except.ok none ∧
    lastPctChange (List.replicate 250 (some 1)) 250 = none ∧
    scoreInUniv [] 250 [none] = none := by
  refine ⟨?_, ?_, ?_, ?_, ?_, ?_⟩
  · exact c10_nan_rps_never_selected.1 0 0 _ (Or.inl rfl)
  · exact c10_nan_rps_never_selected.2.1 0 0 "600000" _ _ (Or.inl rfl)
  · exact c10_nan_rps_never_selected.2.2.1 0 0 _ (Or.inl rfl) rfl ⟨0, by simp, le_refl 0⟩
  · exact c10_nan_rps_never_selected.2.2.2.1 0 0 "600000" _ (Or.inl rfl) rfl
      ⟨0, by simp, le_refl 0⟩
  · exact c10_nan_rps_never_selected.2.2.2.2.1 _ (List.length_replicate 250 (some 1))
  · exact c10_nan_rps_never_selected.2.2.2.2.2 [] [none]
      (lastPctChange_none_of_le (by norm_num))



/-- `df.iloc[-n:]` on a column. -/
def takeLast (n : ℕ) (l : List (Option ℚ)) : List (Option ℚ) :=
  l.drop (l.length - n)

/-- Pandas `Series.diff()` computed within a slice: the first entry is NaN
(no predecessor inside the slice), then the NaN-propagating elementwise
difference with the previous row. -/
def sdiff (xs : List (Option ℚ)) : List (Option ℚ) :=
  match xs with
  | [] => []
  | _ :: t => none :: (t.zip xs).map (fun cp =>
      match cp.1, cp.2 with
      | some c, some p => some (c - p)
      | _, _ => none)

/-- `train.py` `check_ma_trend` lines 74–78, the `ma_condition_latest`
branch: latest ma10 above the prior bar's, latest ma20 above the prior
bar's, and latest ma10 above latest ma20 (`df.iloc[-1]` / `df.iloc[-2]`). -/
def ma_condition_latest (ma10 ma20 : List (Option ℚ)) : Bool :=
  ogt (olast ma10) (olast ma10.dropLast) && ogt (olast ma20) (olast ma20.dropLast) &&
    ogt (olast ma10) (olast ma20)

/-- `train.py` `check_ma_trend` lines 72–73, the 5-day branch:
`((last_5_days['ma20'].diff() > 0) & (last_5_days['ma10'] > last_5_days['ma20'])).all()`
— note the code tests the increase of ma20, and the `.diff()` is taken inside
the 5-row slice. -/
def ma_condition_5days (ma10 ma20 : List (Option ℚ)) : Bool :=
  ((sdiff (takeLast 5 ma20)).zip ((takeLast 5 ma10).zip (takeLast 5 ma20))).all
    (fun x => ogt x.1 (some 0) && ogt x.2.1 x.2.2)

/-- `train.py` `check_ma_trend` line 79: the disjunction of the two branches. -/
def check_ma_trend (ma10 ma20 : List (Option ℚ)) : Bool :=
  ma_condition_5days ma10 ma20 || ma_condition_latest ma10 ma20

/-- Modelled from the spec, for comparison with `ma_condition_5days`: branch
(a) as the spec words it — over the last 5 bars the SHORTER average (ma10) is
monotonically increasing (all consecutive differences positive) and stays
above the longer one on every one of those bars. -/
def spec_ma_trend_sustained (ma10 ma20 : List (Option ℚ)) : Bool :=
  ((sdiff (takeLast 5 ma10)).drop 1).all (fun d => ogt d (some 0)) &&
    ((takeLast 5 ma10).zip (takeLast 5 ma20)).all (fun x => ogt x.1 x.2)

/-- On any nonempty frame the implemented 5-day branch is identically false:
the within-slice `.diff()` makes its first entry NaN, `NaN > 0` is false, and
`.all()` ranges over that false entry. -/
theorem ma_condition_5days_false (ma10 ma20 : List (Option ℚ))
    (hlen : ma10.length = ma20.length) (hne : ma20 ≠ []) :
    ma_condition_5days ma10 ma20 = false := by
  have hpos : 0 < ma20.length := List.length_pos.mpr hne
  have h20 : (takeLast 5 ma20).length = ma20.length - (ma20.length - 5) := by
    simp [takeLast]
  have h10 : (takeLast 5 ma10).length = ma20.length - (ma20.length - 5) := by
    simp [takeLast, hlen]
  have h20p : 0 < (takeLast 5 ma20).length := by omega
  have h10p : 0 < (takeLast 5 ma10).length := by omega
  obtain ⟨b, t20, h20e⟩ := List.exists_cons_of_ne_nil (List.length_pos.mp h20p)
  obtain ⟨a, t10, h10e⟩ := List.exists_cons_of_ne_nil (List.length_pos.mp h10p)
  unfold ma_condition_5days
  rw [h20e, h10e]
  simp [sdiff, ogt]

/-- C6, counterexample: with ma10 = [11,12,13,14,15] (strictly increasing and
above ma20 on all five bars) and ma20 = [10,9,8,7,6], the spec's branch (a)
holds and branch (b) fails (ma20 is falling), so the claim says the trend
condition holds — but `check_ma_trend` is false: the implemented branch (a)
tests ma20's increase inside a slice whose first diff is NaN and never
holds. -/
theorem c6_sustained_branch_counterexample :
    spec_ma_trend_sustained
        [some 11, some 12, some 13, some 14, some 15]
        [some 10, some 9, some 8, some 7, some 6] = true ∧
    ma_condition_latest
        [some 11, some 12, some 13, some 14, some 15]
        [some 10, some 9, some 8, some 7, some 6] = false ∧
    check_ma_trend
        [some 11, some 12, some 13, some 14, some 15]
        [some 10, some 9, some 8, some 7, some 6] = false := by
  refine ⟨?_, ?_, ?_⟩ <;>
    norm_num [spec_ma_trend_sustained, ma_condition_latest, check_ma_trend,
      ma_condition_5days, sdiff, takeLast, ogt, olast]

/-- C6, amended: the trend condition is equivalent to its "fresh trend"
branch (b) alone — latest ma10 and ma20 both above the prior bar's values and
ma10 > ma20 — because the implemented "sustained" branch tests ma20's (not
ma10's) increase over a 5-row slice whose within-slice diff starts with NaN
and therefore never holds. -/
theorem c6_check_ma_trend_eq_latest (ma10 ma20 : List (Option ℚ))
    (hlen : ma10.length = ma20.length) (hne : ma20 ≠ []) :
    check_ma_trend ma10 ma20 = ma_condition_latest ma10 ma20 := by
  unfold check_ma_trend
  rw [ma_condition_5days_false ma10 ma20 hlen hne]
  simp

/-- C6 witness: on a two-bar frame with both averages rising and ma10 on top,
the condition reduces to (and satisfies) the fresh-trend branch. -/
theorem c6_check_ma_trend_eq_latest_witness :
    check_ma_trend [some 1, some 3] [some 0, some 2] =
      ma_condition_latest [some 1, some 3] [some 0, some 2] ∧
    ma_condition_latest [some 1, some 3] [some 0, some 2] = true := by
  constructor
  · exact c6_check_ma_trend_eq_latest [some 1, some 3] [some 0, some 2] rfl (by simp)
  · norm_num [ma_condition_latest, ogt, olast]



/-- `rpstool.py` `main` lines 97–106 (identically `train.py` lines 117–126):
passing results are collected in worker completion order (`as_completed`),
`None` results dropped, and the rows are written through
DataFrame/to_csv/tabulate, all of which preserve list order; no sort is
applied. `evalStock` abstracts each code's `process_stock` outcome (fixed
before the fan-out since the shared tables are frozen), `completionOrder` is
the order in which the futures complete. -/
def main_output_rows (evalStock : String → Option ScreenRec)
    (completionOrder : List String) : List ScreenRec :=
  completionOrder.filterMap evalStock

/-- A per-stock outcome where every code yields a row, used to exhibit
concrete completion orders. -/
def allPass : String → Option ScreenRec := fun c =>
  some { code := c, rps50 := none, rps120 := none, rps250 := none, maxYearlyReturn := none }

/-- C8, counterexample: two completion orders of the same two passing
instruments produce differently-ordered output rows (and the second is not
sorted by code), refuting "any two completion orders yield the same output
row order". -/
theorem c8_completion_order_counterexample :
    (["000002", "000001"] : List String).Perm ["000001", "000002"] ∧
    main_output_rows allPass ["000002", "000001"] ≠
      main_output_rows allPass ["000001", "000002"] := by
  constructor
  · exact List.Perm.swap _ _ _
  · simp [main_output_rows, allPass]

/-- C8, amended: any two completion orders of the same evaluations yield the
same multiset of output rows, but only up to permutation — the rows appear in
completion order and no sort by instrument code is applied. -/
theorem c8_output_rows_perm (evalStock : String → Option ScreenRec)
    (o1 o2 : List String) (h : o1.Perm o2) :
    (main_output_rows evalStock o1).Perm (main_output_rows evalStock o2) :=
  h.filterMap evalStock

/-- C8 witness: the multiset invariance on the two concrete orders. -/
theorem c8_output_rows_perm_witness :
    (main_output_rows allPass ["000002", "000001"]).Perm
      (main_output_rows allPass ["000001", "000002"]) :=
  c8_output_rows_perm allPass ["000002", "000001"] ["000001", "000002"]
    (List.Perm.swap _ _ _)



/-- Outcomes of the `checkrps.py` CLI: the three `sys.exit(1)` error paths and
the normal run printing one RPS value per configured period. -/
inductive CheckrpsOutcome where
  | usageError
  | formatError
  | notFound
  | ok (rps : List (ℕ × Option ℚ))
deriving DecidableEq

/-- The process exit status of each outcome: every error path runs
`sys.exit(1)`; a normal run ends with status 0. -/
def exitCode : CheckrpsOutcome → ℕ
  | .ok _ => 0
  | _ => 1

def ffillAux : Option ℚ → List (Option ℚ) → List (Option ℚ)
  | _, [] => []
  | prev, none :: t => prev :: ffillAux prev t
  | _, some x :: t => some x :: ffillAux (some x) t

/-- Pandas forward fill: the default `fill_method='pad'` of `pct_change` that
`checkrps.py` line 37 relies on (unlike `rpstool.py`, which passes
`fill_method=None`). Leading NaNs stay NaN. -/
def ffill (xs : List (Option ℚ)) : List (Option ℚ) := ffillAux none xs

/-- `checkrps.py` line 37: the latest period-`p` change of one series under
the default pad fill. -/
def lastPctChangePad (closes : List (Option ℚ)) (p : ℕ) : Option ℚ :=
  lastPctChange (ffill closes) p

/-- `checkrps.py` `calculate_rps` lines 29–48: for each period, the target's
latest (pad-filled) change scored against every cached series' change. -/
def checkrps_calculate_rps (cache : List (String × List (Option ℚ)))
    (target : String) : List (ℕ × Option ℚ) :=
  [50, 120, 250].map (fun p =>
    (p, checkrps_rps (cache.map (fun cs => lastPctChangePad cs.2 p))
      ((cache.lookup target).elim none (fun s => lastPctChangePad s p))))

/-- `checkrps.py` `main` lines 50–69: `sys.argv` must have exactly two
entries, the argument must be 6 characters of digits (Python `isdigit`;
ASCII digits suffice for the codes at issue), and the code must be a key of
the cache; each failure prints a message and exits with status 1. -/
def checkrps_main (argv : List String)
    (cache : List (String × List (Option ℚ))) : CheckrpsOutcome :=
  if argv.length ≠ 2 then .usageError
  else
    let target := argv.getD 1 ""
    if target.length = 6 ∧ target.toList.all Char.isDigit then
      if (cache.map Prod.fst).contains target then
        .ok (checkrps_calculate_rps cache target)
      else .notFound
    else .formatError

/-- C9, counterexample: the usage-error path and the code-not-found path exit
with the SAME status 1 — there is no distinct non-zero status for the absent
code, contrary to the claim. -/
theorem c9_exit_status_counterexample :
    checkrps_main ["checkrps.py"] [] = CheckrpsOutcome.usageError ∧
    checkrps_main ["checkrps.py", "123456"] [] = CheckrpsOutcome.notFound ∧
    exitCode (checkrps_main ["checkrps.py"] []) = 1 ∧
    exitCode (checkrps_main ["checkrps.py", "123456"] []) = 1 := by
  refine ⟨?_, ?_, ?_, ?_⟩ <;> decide

/-- C9, amended: a missing or extra argument yields the usage error, a
malformed code (not exactly 6 digits) the format error, and a well-formed
code absent from the cache the not-found error; all three terminate
immediately (no RPS is computed) with the same non-zero exit status 1. -/
theorem c9_cli_error_paths (argv : List String)
    (cache : List (String × List (Option ℚ))) :
    (argv.length ≠ 2 →
      checkrps_main argv cache = CheckrpsOutcome.usageError ∧
      exitCode (checkrps_main argv cache) = 1) ∧
    (∀ prog t, argv = [prog, t] →
      ¬ (t.length = 6 ∧ t.toList.all Char.isDigit) →
      checkrps_main argv cache = CheckrpsOutcome.formatError ∧
      exitCode (checkrps_main argv cache) = 1) ∧
    (∀ prog t, argv = [prog, t] → t.length = 6 → t.toList.all Char.isDigit →
      (cache.map Prod.fst).contains t = false →
      checkrps_main argv cache = CheckrpsOutcome.notFound ∧
      exitCode (checkrps_main argv cache) = 1) := by
  refine ⟨?_, ?_, ?_⟩
  · intro h
    have hmain : checkrps_main argv cache = CheckrpsOutcome.usageError := by
      unfold checkrps_main
      rw [if_pos h]
    exact ⟨hmain, by rw [hmain]; rfl⟩
  · intro prog t he h
    subst he
    have hlen : ¬ (([prog, t] : List String).length ≠ 2) := by simp
    have hmain : checkrps_main [prog, t] cache = CheckrpsOutcome.formatError := by
      unfold checkrps_main
      rw [if_neg hlen]
      simp only [List.getD_cons_succ, List.getD_cons_zero]
      rw [if_neg h]
    exact ⟨hmain, by rw [hmain]; rfl⟩
  · intro prog t he h6 hdig hmem
    subst he
    have hlen : ¬ (([prog, t] : List String).length ≠ 2) := by simp
    have hmain : checkrps_main [prog, t] cache = CheckrpsOutcome.notFound := by
      unfold checkrps_main
      rw [if_neg hlen]
      simp only [List.getD_cons_succ, List.getD_cons_zero]
      rw [if_pos ⟨h6, hdig⟩, if_neg (by rw [hmem]; exact Bool.false_ne_true)]
    exact ⟨hmain, by rw [hmain]; rfl⟩

/-- C9 witness: the three error paths instantiated on concrete invocations. -/
theorem c9_cli_error_paths_witness :
    (checkrps_main ["checkrps.py"] [] = CheckrpsOutcome.usageError ∧
      exitCode (checkrps_main ["checkrps.py"] []) = 1) ∧
    (checkrps_main ["checkrps.py", "12ab56"] [] = CheckrpsOutcome.formatError ∧
      exitCode (checkrps_main ["checkrps.py", "12ab56"] []) = 1) ∧
    (checkrps_main ["checkrps.py", "654321"] [] = CheckrpsOutcome.notFound ∧
      exitCode (checkrps_main ["checkrps.py", "654321"] []) = 1) :=
  ⟨(c9_cli_error_paths ["checkrps.py"] []).1 (by decide),
   (c9_cli_error_paths ["checkrps.py", "12ab56"] []).2.1 "checkrps.py" "12ab56" rfl (by decide),
   (c9_cli_error_paths ["checkrps.py", "654321"] []).2.2 "checkrps.py" "654321" rfl (by decide)
     (by decide) (by decide)⟩


end RpsSel
